import Mathlib

/-!
Verification of the Protein-Database loader/query script (`Protein_database.py`).

The script is a thin SQLite wrapper: a schema initializer, six file-to-table
loaders, nine fixed queries and a CLI dispatcher.  We embed the parts the
claims exercise shallowly:

* table cells are `SqlVal` (SQLite storage classes NULL / INTEGER / REAL /
  TEXT; BLOB never arises here since every inserted value is a CSV string
  or Python `None`);
* text inserted into a typed column goes through the column's type
  affinity, as SQLite applies it (`integerAffinity`, `realAffinity`);
* each loader is a fold over the parsed file rows, returning `Except`:
  `.error` models an uncaught Python exception, in which case the pending
  transaction is never committed and the table keeps its previous rows;
* each query is a pure function from table contents to
  (result, diagnostic-printed) pairs.

Strings are modelled as `List Char` (`Str`) so that splitting and
concatenation are plain list operations.
-/

namespace ProteinDatabase

/-- Strings of the embedded program: plain character lists. -/
abbrev Str : Type := List Char

/-- SQLite storage-class values held by table cells.  Reals are modelled as
rationals; the numeric values appearing in this development are all exactly
representable. -/
inductive SqlVal : Type where
  | null : SqlVal
  | int (i : Int) : SqlVal
  | real (q : ℚ) : SqlVal
  | text (t : Str) : SqlVal
deriving DecidableEq, Repr

/-- Decimal value of a digit run (most significant first). -/
def digitsValNat (s : Str) : Nat :=
  s.foldl (fun acc c => acc * 10 + (c.toNat - 48)) 0

/-- Parse an unsigned numeric literal into its integer-part and
fractional-part digit runs: digits, optionally followed by a point and
further digits, with at least one digit in total.  (SQLite also admits
exponent notation and surrounding whitespace; neither occurs in the data
the claims are about.) -/
def parseUnsignedParts (s : Str) : Option (Str × Str) :=
  match s.span Char.isDigit with
  | (ip, []) => if ip.isEmpty then none else some (ip, [])
  | (ip, '.' :: fp) =>
      if fp.all Char.isDigit && !(ip.isEmpty && fp.isEmpty) then some (ip, fp)
      else none
  | _ => none

/-- Parse a (possibly signed) numeric literal: sign flag plus the two
digit runs. -/
def parseNumericParts : Str → Option (Bool × Str × Str)
  | '-' :: rest => (parseUnsignedParts rest).map (fun p => (true, p))
  | '+' :: rest => (parseUnsignedParts rest).map (fun p => (false, p))
  | s => (parseUnsignedParts s).map (fun p => (false, p))

/-- Integer value of a sign flag and an integer-part digit run. -/
def intVal (neg : Bool) (ip : Str) : Int :=
  if neg then -(digitsValNat ip : Int) else (digitsValNat ip : Int)

/-- Rational value of a parsed decimal literal. -/
def decimalVal (neg : Bool) (ip fp : Str) : ℚ :=
  let mag : ℚ := (digitsValNat ip : ℚ) + (digitsValNat fp : ℚ) / (10 : ℚ) ^ fp.length
  if neg then -mag else mag

/-- SQLite INTEGER (= NUMERIC) column affinity applied to an inserted text:
well-formed numeric text is stored as an integer when its value is
integral (i.e. its fractional digits, if any, are all zero), as a real
otherwise; any other text is stored as given. -/
def integerAffinity (s : Str) : SqlVal :=
  match parseNumericParts s with
  | none => .text s
  | some (neg, ip, fp) =>
      if fp.all (fun c => c = '0') then .int (intVal neg ip)
      else .real (decimalVal neg ip fp)

/-- SQLite REAL column affinity applied to an inserted text: well-formed
numeric text is stored as a real; any other text is stored as given. -/
def realAffinity (s : Str) : SqlVal :=
  match parseNumericParts s with
  | none => .text s
  | some (neg, ip, fp) => .real (decimalVal neg ip fp)

/-- Decimal digits of a natural number (fuel-driven recursion). -/
def natDigitsAux : Nat → Nat → Str
  | 0, _ => []
  | _ + 1, 0 => []
  | fuel + 1, n => natDigitsAux fuel (n / 10) ++ [Char.ofNat (48 + n % 10)]

/-- Decimal rendering of a natural number. -/
def renderNat (n : Nat) : Str :=
  if n = 0 then ['0'] else natDigitsAux (n + 1) n

/-- Decimal rendering of an integer, as SQLite casts an INTEGER to TEXT. -/
def renderInt : Int → Str
  | .ofNat n => renderNat n
  | .negSucc m => '-' :: renderNat (m + 1)

/-- Split a string at every dash, exactly as Python's
`sample_id.split('-')`: the empty string yields `[""]`, and `n` dashes
yield `n + 1` (possibly empty) pieces. -/
def splitDash : Str → List Str
  | [] => [[]]
  | c :: cs =>
      if c = '-' then [] :: splitDash cs
      else
        match splitDash cs with
        | [] => [[c]]
        | p :: ps => (c :: p) :: ps

/-- Rejoin the pieces of a dash-split with dashes. -/
def joinDash : List Str → Str
  | [] => []
  | [a] => a
  | a :: rest => a ++ '-' :: joinDash rest

/-! ## Table rows

One structure per table of the schema created by `database_struct`
(lines 42-92 of `Protein_database.py`).  TEXT-affinity columns keep the
inserted Python string unchanged, so they are typed `Str`; INTEGER/REAL
columns hold an affinity-converted `SqlVal`.  The three abundance tables
(TranscriptAbundance, ProteinAbundance, MetaboliteAbundance) have the same
shape `(SampleID, analyte, Abundance)` with primary key
`(SampleID, analyte)`. -/

/-- A row of the Subjects table. -/
structure SubjectRow : Type where
  subjectID : Str
  sex : Str
  age : SqlVal
  bmi : SqlVal
  race : Str
  sspg : SqlVal
  insulinStatus : Str
deriving DecidableEq, Repr

/-- A row of the Samples table. -/
structure SampleRow : Type where
  sampleID : Str
  subjectID : Str
  visitID : SqlVal
deriving DecidableEq, Repr

/-- A row of one of the three abundance tables. -/
structure AbundanceRow : Type where
  sampleID : Str
  analyte : Str
  abundance : SqlVal
deriving DecidableEq, Repr

/-- A row of the Annotation table. -/
structure AnnotationRow : Type where
  peakID : Str
  metabolite : Str
  kegg : Str
  hmdb : Str
  pathway : Str
deriving DecidableEq, Repr

/-! ## Schema initializer (`database_struct`, lines 19-100)

`executescript` runs the six CREATE TABLE statements one at a time and
stops at the first failure; a `CREATE TABLE` against an existing name
raises `sqlite3.Error`, which the function catches and prints, and the
`finally` block closes the connection.  Tables created before the failing
statement persist (`executescript` performs no implicit transaction
control around the script, so each DDL statement takes effect on its
own). -/

/-- The database state the script manipulates: which tables exist, and
their rows. -/
structure DB : Type where
  tables : List Str
  subjects : List SubjectRow
  samples : List SampleRow
  transcripts : List AbundanceRow
  proteins : List AbundanceRow
  metabolites : List AbundanceRow
  annotations : List AnnotationRow
deriving DecidableEq, Repr

/-- The six table names of the CREATE script, in script order. -/
def schemaTableNames : List Str :=
  ["Subjects".data, "Samples".data, "TranscriptAbundance".data,
   "ProteinAbundance".data, "MetaboliteAbundance".data, "Annotation".data]

/-- Run the CREATE statements in order until the first one whose table
already exists; return the resulting table list and whether an error was
raised (and hence caught and logged). -/
def createTables (existing : List Str) : List Str → List Str × Bool
  | [] => (existing, false)
  | n :: rest =>
      if n ∈ existing then (existing, true)
      else createTables (existing ++ [n]) rest

/-- Outcome of `database_struct`: the database afterwards, whether an
error was printed, and whether the connection was closed (the `finally`
block always closes it). -/
structure StructResult : Type where
  db : DB
  errorLogged : Bool
  connectionClosed : Bool
deriving DecidableEq, Repr

/-- Model of `database_struct` (lines 19-100): create the six tables, catching and
logging a table-exists error; row contents are never touched. -/
def database_struct (db : DB) : StructResult :=
  let p := createTables db.tables schemaTableNames
  { db := { db with tables := p.1 }, errorLogged := p.2, connectionClosed := true }

/-! ## Subjects loader (`subject_table_populator`, lines 104-146)

The loader deletes all rows, then inserts one row per CSV record.  Line
129 binds a local `age` coerced to `None` for the sentinel values, but the
INSERT at lines 131-142 uses `row['Age']`, not that local.  SubjectID is
the primary key, so a duplicate raises an uncaught `IntegrityError`; the
commit at line 144 is then never reached and the table keeps its previous
rows. -/

/-- A parsed record of the subjects CSV file (raw field strings). -/
structure SubjectsFileRow : Type where
  subjectID : Str
  sex : Str
  age : Str
  bmi : Str
  race : Str
  sspg : Str
  ir_is_classification : Str
deriving DecidableEq, Repr

/-- Line 129: `age = None if row['Age'] in ('NA','') else row['Age']`.
This local is computed but never referenced by the INSERT. -/
def coercedAge (raw : Str) : Option Str :=
  if raw = "NA".data ∨ raw = [] then none else some raw

/-- The Subjects row the INSERT at lines 131-142 produces: every bound
parameter is the raw CSV string (`row['Age']`, not the coerced local),
stored through the declared column affinities. -/
def rowToSubject (r : SubjectsFileRow) : SubjectRow :=
  { subjectID := r.subjectID
    sex := r.sex
    age := integerAffinity r.age
    bmi := realAffinity r.bmi
    race := r.race
    sspg := realAffinity r.sspg
    insulinStatus := r.ir_is_classification }

/-- Plain INSERT into Subjects: a duplicate primary key raises. -/
def insertSubject (tbl : List SubjectRow) (r : SubjectRow) :
    Except Unit (List SubjectRow) :=
  if tbl.any (fun t => t.subjectID = r.subjectID) then .error ()
  else .ok (tbl ++ [r])

/-- Insert the converted file rows in order, stopping at the first
primary-key collision. -/
def subjectInsertAll : List SubjectsFileRow → List SubjectRow →
    Except Unit (List SubjectRow)
  | [], tbl => .ok tbl
  | r :: rest, tbl =>
      match insertSubject tbl (rowToSubject r) with
      | .error e => .error e
      | .ok tbl2 => subjectInsertAll rest tbl2

/-- Model of `subject_table_populator` (lines 104-146): DELETE FROM Subjects, then
insert every file row.  `.ok` is the committed table; `.error` carries the
surviving previous table (the uncaught exception skips the commit). -/
def subject_table_populator (rows : List SubjectsFileRow)
    (oldTbl : List SubjectRow) : Except (List SubjectRow) (List SubjectRow) :=
  match subjectInsertAll rows [] with
  | .ok t => .ok t
  | .error _ => .error oldTbl

/-! ## Samples loader (`sample_table_populator`, lines 150-195)

Per row, `row['SampleID']` may raise `KeyError` (header without that
column), which is caught, printed and skipped; the two-variable unpacking
of `sample_id.split('-')` raises `ValueError` on any piece count other
than two, and `ValueError` is *not* caught, so such a row aborts the whole
load (commit never reached).  The INSERT is `INSERT OR IGNORE`, so a
duplicate SampleID is silently dropped.  VisitID is an INTEGER column. -/

/-- The `INSERT OR IGNORE INTO Samples` statement: keep the table unchanged when the
primary key (SampleID) is already present. -/
def insertOrIgnoreSample (tbl : List SampleRow) (r : SampleRow) :
    List SampleRow :=
  if tbl.any (fun t => t.sampleID = r.sampleID) then tbl else tbl ++ [r]

/-- Body of the row loop: the table so far, the diagnostics printed so
far, and the remaining rows (each row modelled by its `row['SampleID']`
lookup: `none` is a missing key).  `.error` is the uncaught
`ValueError`. -/
def sampleLoadAux : List (Option Str) → List SampleRow → Nat →
    Except Unit (List SampleRow × Nat)
  | [], tbl, printed => .ok (tbl, printed)
  | none :: rest, tbl, printed => sampleLoadAux rest tbl (printed + 1)
  | some sid :: rest, tbl, printed =>
      match splitDash sid with
      | [a, b] =>
          sampleLoadAux rest
            (insertOrIgnoreSample tbl
              { sampleID := sid, subjectID := a, visitID := integerAffinity b })
            printed
      | _ => .error ()

/-- Model of `sample_table_populator` (lines 150-195): DELETE FROM Samples, then
run the row loop.  `.ok` is the committed table plus the number of
"SampleID not found" diagnostics printed; `.error` carries the surviving
previous table. -/
def sample_table_populator (rows : List (Option Str))
    (oldTbl : List SampleRow) :
    Except (List SampleRow) (List SampleRow × Nat) :=
  match sampleLoadAux rows [] 0 with
  | .ok p => .ok p
  | .error _ => .error oldTbl

/-! ## Wide-format abundance loaders (lines 199-309)

`transcriptome_populator`, `protein_populator` and `Metabolite_populator`
are three copies of the same routine over their respective tables.  Each
deletes the table, then per file line pops the SampleID and inserts one
row per remaining (header column, value) pair, i.e. a row-by-row
wide-to-long pivot.  The INSERT is plain, so a duplicate
(SampleID, analyte) pair raises an uncaught `IntegrityError` aborting the
load with the commit never reached.

A file line is modelled as its SampleID plus the list of data-column
values, aligned with the header's analyte names (`DictReader` yields the
columns in header order). -/

/-- Plain INSERT into an abundance table: a duplicate
(SampleID, analyte) primary key raises. -/
def insertAbundance (tbl : List AbundanceRow) (r : AbundanceRow) :
    Except Unit (List AbundanceRow) :=
  if tbl.any (fun t => t.sampleID = r.sampleID && t.analyte = r.analyte) then
    .error ()
  else .ok (tbl ++ [r])

/-- Insert one file line's (analyte, value) pairs in column order. -/
def abundanceRowAux (sid : Str) : List (Str × Str) → List AbundanceRow →
    Except Unit (List AbundanceRow)
  | [], tbl => .ok tbl
  | (a, v) :: rest, tbl =>
      match insertAbundance tbl
          { sampleID := sid, analyte := a, abundance := realAffinity v } with
      | .error e => .error e
      | .ok tbl2 => abundanceRowAux sid rest tbl2

/-- The row loop shared by the three wide-format loaders. -/
def abundanceLoadAux (analytes : List Str) :
    List (Str × List Str) → List AbundanceRow →
    Except Unit (List AbundanceRow)
  | [], tbl => .ok tbl
  | (sid, vals) :: rest, tbl =>
      match abundanceRowAux sid (analytes.zip vals) tbl with
      | .error e => .error e
      | .ok tbl2 => abundanceLoadAux analytes rest tbl2

/-- Model of `transcriptome_populator` (lines 199-233): DELETE FROM
TranscriptAbundance, then pivot every file line.  `.error` carries the
surviving previous table. -/
def transcriptome_populator (analytes : List Str)
    (rows : List (Str × List Str)) (oldTbl : List AbundanceRow) :
    Except (List AbundanceRow) (List AbundanceRow) :=
  match abundanceLoadAux analytes rows [] with
  | .ok t => .ok t
  | .error _ => .error oldTbl

/-- Model of `protein_populator` (lines 237-271): identical to the transcript
loader, targeting ProteinAbundance. -/
def protein_populator (analytes : List Str)
    (rows : List (Str × List Str)) (oldTbl : List AbundanceRow) :
    Except (List AbundanceRow) (List AbundanceRow) :=
  match abundanceLoadAux analytes rows [] with
  | .ok t => .ok t
  | .error _ => .error oldTbl

/-- Model of `Metabolite_populator` (lines 275-309): identical to the transcript
loader, targeting MetaboliteAbundance. -/
def Metabolite_populator (analytes : List Str)
    (rows : List (Str × List Str)) (oldTbl : List AbundanceRow) :
    Except (List AbundanceRow) (List AbundanceRow) :=
  match abundanceLoadAux analytes rows [] with
  | .ok t => .ok t
  | .error _ => .error oldTbl

/-! ## SQLite expression semantics used by the queries

Comparison of stored values: NULL compares as unknown (rows filtered
out), numerics compare by value, any numeric sorts below any text, and
texts compare bytewise (BINARY collation).  `AVG` interprets every
non-null value numerically, taking the longest numeric prefix of a text
(0 when there is none), and always yields a real. -/

/-- Bytewise (code-point) strict order on text. -/
def lexLt : Str → Str → Bool
  | [], [] => false
  | [], _ :: _ => true
  | _ :: _, [] => false
  | c :: cs, d :: ds => if c < d then true else if d < c then false else lexLt cs ds

/-- Bytewise order on text, non-strict. -/
def lexLe (a b : Str) : Bool := !(lexLt b a)

/-- SQLite's order on non-null stored values: numerics below texts,
numerics by value, texts bytewise.  (NULL is placed below everything;
the aggregate folds never compare against it.) -/
def sqlValLt : SqlVal → SqlVal → Bool
  | .null, .null => false
  | .null, _ => true
  | _, .null => false
  | .int a, .int b => a < b
  | .int a, .real q => (a : ℚ) < q
  | .real q, .int b => q < (b : ℚ)
  | .real p, .real q => p < q
  | .text a, .text b => lexLt a b
  | .text _, _ => false
  | _, .text _ => true

/-- Fold step of the MIN aggregate (`.null` is "no value seen yet"). -/
def sqlMinFold (acc v : SqlVal) : SqlVal :=
  match acc with
  | .null => v
  | _ => if sqlValLt v acc then v else acc

/-- Fold step of the MAX aggregate. -/
def sqlMaxFold (acc v : SqlVal) : SqlVal :=
  match acc with
  | .null => v
  | _ => if sqlValLt acc v then v else acc

/-- MIN aggregate: least non-null value, NULL when there is none. -/
def sqlMin (vs : List SqlVal) : SqlVal :=
  (vs.filter (fun v => v ≠ SqlVal.null)).foldl sqlMinFold .null

/-- MAX aggregate: greatest non-null value, NULL when there is none. -/
def sqlMax (vs : List SqlVal) : SqlVal :=
  (vs.filter (fun v => v ≠ SqlVal.null)).foldl sqlMaxFold .null

/-- Longest numeric prefix of a text, as digit runs (sign, integer part,
fractional part); an empty parse stands for the value 0. -/
def textNumericParts (s : Str) : Bool × Str × Str :=
  let unsigned : Str → Str × Str := fun u =>
    match u.span Char.isDigit with
    | (ip, '.' :: r2) => (ip, r2.takeWhile Char.isDigit)
    | (ip, _) => (ip, [])
  match s with
  | '-' :: rest => (true, unsigned rest)
  | '+' :: rest => (false, unsigned rest)
  | _ => (false, unsigned s)

/-- Numeric interpretation of a non-null value, as SUM/AVG apply it. -/
def toNumericQ : SqlVal → ℚ
  | .null => 0
  | .int i => (i : ℚ)
  | .real q => q
  | .text s =>
      let p := textNumericParts s
      decimalVal p.1 p.2.1 p.2.2

/-- AVG aggregate: mean of the numeric interpretations of the non-null
values, NULL when there are none, always a real. -/
def sqlAvg (vs : List SqlVal) : SqlVal :=
  let nn := vs.filter (fun v => v ≠ SqlVal.null)
  if nn.isEmpty then .null
  else .real ((nn.map toNumericQ).sum / (nn.length : ℚ))

/-- Insertion into a sorted list (`le` is the intended "comes first or
equal" test). -/
def insertSorted (le : α → α → Bool) (x : α) : List α → List α
  | [] => [x]
  | y :: ys => if le x y then x :: y :: ys else y :: insertSorted le x ys

/-- Insertion sort used to model ORDER BY. -/
def sortBy (le : α → α → Bool) : List α → List α
  | [] => []
  | x :: xs => insertSorted le x (sortBy le xs)

/-- SELECT DISTINCT: keep the first occurrence of each value. -/
def distinctFirst [DecidableEq α] : List α → List α
  | [] => []
  | x :: xs => x :: (distinctFirst xs).filter (fun y => y ≠ x)

/-! ## Query library (lines 344-570)

Each query is modelled as a pure function of the table contents it reads,
returning the rows the Python function returns together with a `Bool`
recording whether its zero-result diagnostic was printed.  All are total:
none of these functions can raise. -/

/-- The filter `WHERE Age > 70`: NULL is unknown (excluded); any text exceeds any
numeric. -/
def gtSeventy : SqlVal → Bool
  | .null => false
  | .int i => 70 < i
  | .real q => (70 : ℚ) < q
  | .text _ => true

/-- Query 1, `subjects_over_70` (lines 346-360). -/
def subjects_over_70 (subjects : List SubjectRow) :
    List (Str × SqlVal) × Bool :=
  let answer := (subjects.filter (fun r => gtSeventy r.age)).map
    (fun r => (r.subjectID, r.age))
  if answer.isEmpty then ([], true) else (answer, false)

/-- The filter `BMI BETWEEN 18.5 AND 24.9`: NULL is unknown; a text is above both
bounds, so it fails the upper one. -/
def bmiHealthy : SqlVal → Bool
  | .null => false
  | .int i => decide ((18.5 : ℚ) ≤ (i : ℚ) ∧ (i : ℚ) ≤ (24.9 : ℚ))
  | .real q => decide ((18.5 : ℚ) ≤ q ∧ q ≤ (24.9 : ℚ))
  | .text _ => false

/-- Query 2, `females_with_healthy_BMI` (lines 364-382). -/
def females_with_healthy_BMI (subjects : List SubjectRow) :
    List Str × Bool :=
  let answer := sortBy (fun a b => lexLe b a)
    ((subjects.filter (fun r => r.sex = "F".data && bmiHealthy r.bmi)).map
      (fun r => r.subjectID))
  if answer.isEmpty then ([], true) else (answer, false)

/-- Query 3, `visits_by_ZNQOVZV` (lines 386-399): returns the fetched
rows unconditionally and never prints a diagnostic. -/
def visits_by_ZNQOVZV (samples : List SampleRow) : List SqlVal × Bool :=
  ((samples.filter (fun s => s.subjectID = "ZNQOVZV".data)).map
    (fun s => s.visitID), false)

/-- Query 4, `subjects_metabolomic_insulin_resistant` (lines 403-422):
the JOIN keeps the sample rows with a matching IR subject, DISTINCT
collapses the projected SubjectIDs. -/
def subjects_metabolomic_insulin_resistant (samples : List SampleRow)
    (subjects : List SubjectRow) : List Str × Bool :=
  let answer := distinctFirst
    ((samples.filter (fun s => subjects.any
      (fun b => b.subjectID = s.subjectID && b.insulinStatus = "IR".data))).map
      (fun s => s.subjectID))
  if answer.isEmpty then ([], true) else (answer, false)

/-- The four hardcoded PeakIDs of query 5. -/
def keggPeaks : List Str :=
  ["nHILIC_121.0505_3.5".data, "nHILIC_130.0872_6.3".data,
   "nHILIC_133.0506_2.3".data, "nHILIC_133.0506_4.4".data]

/-- Query 5, `KEGG_id_retriever` (lines 426-448). -/
def KEGG_id_retriever (annotations : List AnnotationRow) :
    List Str × Bool :=
  let answer := distinctFirst
    ((annotations.filter (fun a => keggPeaks.contains a.peakID)).map
      (fun a => a.kegg))
  if answer.isEmpty then ([], true) else (answer, false)

/-- The Python exceptions the embedding distinguishes. -/
inductive PyExc : Type where
  | nameError : PyExc
deriving DecidableEq, Repr

/-- The filter `WHERE Age IS NOT NULL AND Age != 'NA'`: NULL fails the first
conjunct; the text 'NA' fails the second; every other stored value
passes (a numeric is always unequal to the text 'NA'). -/
def ageFilter : SqlVal → Bool
  | .null => false
  | .text s => decide (s ≠ "NA".data)
  | _ => true

/-- The Age values query 6 aggregates over. -/
def filteredAges (subjects : List SubjectRow) : List SqlVal :=
  (subjects.map (fun r => r.age)).filter ageFilter

/-- Query 6, `statistical_data_on_age` (lines 452-479).  `dbError` models
whether the `cursor.execute` raises `sqlite3.Error`: in that case the
handler prints the message, the `finally` closes the connection, and the
subsequent `if not answer or ...` line raises `NameError` because the
local `answer` was never bound — modelled by `.error .nameError`.
Otherwise the aggregate SELECT always yields exactly one row; the
function prints "No valid data found." exactly when all three aggregates
are NULL (a non-empty Python tuple is always truthy, so `not answer`
never fires), and returns the one-row list either way. -/
def statistical_data_on_age (dbError : Bool) (subjects : List SubjectRow) :
    Except PyExc (List (SqlVal × SqlVal × SqlVal) × Bool) :=
  if dbError then .error .nameError
  else
    let nn := filteredAges subjects
    let mn := sqlMin nn
    let mx := sqlMax nn
    let av := sqlAvg nn
    let diag : Bool :=
      decide (mn = SqlVal.null ∧ mx = SqlVal.null ∧ av = SqlVal.null)
    .ok ([(mn, mx, av)], diag)

/-- A Subjects row carrying only an Age value, for exercising the
age-statistics query (the other columns do not enter its SQL). -/
def ageOnlyRow (a : SqlVal) : SubjectRow :=
  { subjectID := [], sex := [], age := a, bmi := .null, race := [],
    sspg := .null, insulinStatus := [] }

/-- Modelled from the spec's words for query 6, "computed over exactly
the non-null Age values": the Age column minus its NULLs, with no further
filtering.  Kept for comparison against `filteredAges`, which is what the
SQL actually aggregates over. -/
def specNonNullAges (subjects : List SubjectRow) : List SqlVal :=
  (subjects.map (fun r => r.age)).filter (fun v => v ≠ SqlVal.null)

/-- Query 7, `pathway_annotation_counter` (lines 484-504). -/
def pathway_annotation_counter (annotations : List AnnotationRow) :
    List (Str × Nat) × Bool :=
  let groups := distinctFirst (annotations.map (fun a => a.pathway))
  let counted := groups.map
    (fun p => (p, annotations.countP (fun a => a.pathway = p)))
  let answer := sortBy (fun x y => decide (y.2 ≤ x.2))
    (counted.filter (fun pc => decide (10 ≤ pc.2)))
  if answer.isEmpty then ([], true) else (answer, false)

/-- Query 8, `max_A1BG_abundance` (lines 508-529): the aggregate SELECT
always yields one row holding `MAX(Abundance)`; the scalar is returned
when non-null, otherwise the diagnostic is printed and `None`
returned. -/
def max_A1BG_abundance (samples : List SampleRow)
    (transcripts : List AbundanceRow) : Option SqlVal × Bool :=
  let sids := (samples.filter
    (fun s => s.subjectID = "ZOZOW1T".data)).map (fun s => s.sampleID)
  let vals := (transcripts.filter
    (fun t => t.analyte = "A1BG".data && sids.contains t.sampleID)).map
    (fun t => t.abundance)
  let m := sqlMax vals
  if m = SqlVal.null then (none, true) else (some m, false)

/-- A value `isinstance(x, (int, float))` accepts: an INTEGER or REAL
cell (TEXT arrives as `str`, NULL as `None`). -/
def isNumericVal : SqlVal → Bool
  | .int _ => true
  | .real _ => true
  | _ => false

/-- Query 9, `age_bmi_plot` (lines 533-570): fetches the non-null
(Age, BMI) pairs and returns them; the plot is drawn from the rows whose
two cells are numeric, and the "No valid Age and BMI data to plot."
diagnostic is printed exactly when no such row exists. -/
def age_bmi_plot (subjects : List SubjectRow) :
    List (SqlVal × SqlVal) × Bool :=
  let data := (subjects.filter
    (fun r => !(r.age == SqlVal.null) && !(r.bmi == SqlVal.null))).map
    (fun r => (r.age, r.bmi))
  let numericData := data.filter (fun p => isNumericVal p.1 && isNumericVal p.2)
  (data, numericData.isEmpty)

/-! ## Command dispatcher (`main`, lines 590-687)

Only the `--querydb` branch (lines 633-687) is claim-relevant.  The guard
is `if args.querydb:`, which Python evaluates as falsy both for the
absent flag (`None`) and for the integer 0; inside, an elif chain runs
queries 1-9 and the final else prints "Invalid query number. Please
choose between 1 and 9." and returns. -/

/-- Outcome of the query branch of `main`: which query ran, and whether
the invalid-number message was printed. -/
structure DispatchResult : Type where
  ranQuery : Option Int
  invalidMessage : Bool
deriving DecidableEq, Repr

/-- The `--querydb` branch of `main`. -/
def querydb_dispatch : Option Int → DispatchResult
  | none => { ranQuery := none, invalidMessage := false }
  | some q =>
      if q = 0 then { ranQuery := none, invalidMessage := false }
      else if q = 1 then { ranQuery := some 1, invalidMessage := false }
      else if q = 2 then { ranQuery := some 2, invalidMessage := false }
      else if q = 3 then { ranQuery := some 3, invalidMessage := false }
      else if q = 4 then { ranQuery := some 4, invalidMessage := false }
      else if q = 5 then { ranQuery := some 5, invalidMessage := false }
      else if q = 6 then { ranQuery := some 6, invalidMessage := false }
      else if q = 7 then { ranQuery := some 7, invalidMessage := false }
      else if q = 8 then { ranQuery := some 8, invalidMessage := false }
      else if q = 9 then { ranQuery := some 9, invalidMessage := false }
      else { ranQuery := none, invalidMessage := true }

/-! ## Helper lemmas -/

theorem splitDash_ne_nil (s : Str) : splitDash s ≠ [] := by
  cases s with
  | nil => simp [splitDash]
  | cons c cs =>
      simp only [splitDash]
      split
      · simp
      · split
        · simp
        · simp

theorem joinDash_splitDash (s : Str) : joinDash (splitDash s) = s := by
  induction s with
  | nil => rfl
  | cons c cs ih =>
      simp only [splitDash]
      split
      · rename_i hc
        subst hc
        cases h : splitDash cs with
        | nil => exact absurd h (splitDash_ne_nil cs)
        | cons p ps =>
            rw [h] at ih
            simp [joinDash, ih]
      · cases h : splitDash cs with
        | nil => exact absurd h (splitDash_ne_nil cs)
        | cons p ps =>
            rw [h] at ih
            cases ps with
            | nil => simpa [joinDash] using ih
            | cons q qs => simpa [joinDash] using ih

/-- The two-piece case of the split round-trip: the subject part, a dash
and the visit part reassemble the sample identifier. -/
theorem splitDash_two (s a b : Str) (h : splitDash s = [a, b]) :
    a ++ '-' :: b = s := by
  have := joinDash_splitDash s
  rw [h] at this
  simpa [joinDash] using this

/-- The empty-result guard shared by queries 1, 2, 4, 5 and 7: if the
returned row list is empty, the diagnostic was printed. -/
theorem emptyGuard_diag {α : Type} (ans : List α)
    (h : (if ans.isEmpty then (([] : List α), true) else (ans, false)).1 = []) :
    (if ans.isEmpty then (([] : List α), true) else (ans, false)).2 = true := by
  cases ans with
  | nil => simp
  | cons x xs => simp at h

/-- The null-scalar guard of query 8: if the returned scalar is `None`,
the diagnostic was printed. -/
theorem scalarGuard_diag (m : SqlVal)
    (h : (if m = SqlVal.null then ((none : Option SqlVal), true)
          else (some m, false)).1 = none) :
    (if m = SqlVal.null then ((none : Option SqlVal), true)
     else (some m, false)).2 = true := by
  by_cases hm : m = SqlVal.null <;> simp [hm] at h ⊢

/-- Printed-diagnostic counter of the sample row loop: the start value
shifts the final count additively. -/
theorem sampleLoadAux_printed_shift (rows : List (Option Str))
    (tbl : List SampleRow) (n : Nat) :
    sampleLoadAux rows tbl n =
      (sampleLoadAux rows tbl 0).map (fun p => (p.1, p.2 + n)) := by
  induction rows generalizing tbl n with
  | nil => simp [sampleLoadAux, Except.map]
  | cons r rest ih =>
      cases r with
      | none =>
          simp only [sampleLoadAux]
          rw [ih tbl (n + 1), ih tbl (0 + 1)]
          cases sampleLoadAux rest tbl 0 with
          | error e => rfl
          | ok p =>
              simp only [Except.map]
              have h2 : p.2 + (n + 1) = p.2 + (0 + 1) + n := by omega
              rw [h2]
      | some sid =>
          simp only [sampleLoadAux]
          cases hs : splitDash sid with
          | nil => rfl
          | cons a t1 =>
              cases t1 with
              | nil => rfl
              | cons b t2 =>
                  cases t2 with
                  | nil => exact ih _ n
                  | cons c t3 => rfl

/-! ## Claim theorems -/

/-- C1: the claim says a subjects row whose Age field is "NA" (or empty)
is inserted with a null Age.  The code computes that coercion into the
local `age` (line 129) but the INSERT binds `row['Age']` (line 137), so
the row is stored with the literal text 'NA' instead of NULL: evaluating
the loader at such a row exhibits the non-null stored Age. -/
theorem C1_na_age_stored_as_text :
    subject_table_populator
      [{ subjectID := "S1".data, sex := "F".data, age := "NA".data,
         bmi := "x".data, race := "r".data, sspg := "y".data,
         ir_is_classification := "IR".data }] [] =
      .ok [{ subjectID := "S1".data, sex := "F".data,
             age := SqlVal.text ("NA".data), bmi := SqlVal.text ("x".data),
             race := "r".data, sspg := SqlVal.text ("y".data),
             insulinStatus := "IR".data }]
    ∧ coercedAge ("NA".data) = none
    ∧ SqlVal.text ("NA".data) ≠ SqlVal.null := by
  refine ⟨rfl, rfl, by decide⟩

/-- C2 counterexample: a samples row whose SampleID has no dash (one
piece instead of two) is not caught and skipped — the tuple unpacking
raises an uncaught `ValueError` (only `KeyError` is handled), so the load
aborts and the following well-formed row is never loaded. -/
theorem C2_counterexample :
    sample_table_populator [some ("SAMPLE1".data), some ("S-1".data)] [] =
      .error [] := by
  rfl

/-- C2 amended: a row whose SampleID key is missing raises `KeyError`,
which is caught, logged and skipped, and loading continues; but a row
whose SampleID does not split into exactly two dash-separated parts
raises an uncaught `ValueError` that aborts the load, leaving the
previous table contents in place. -/
theorem C2_amended :
    (∀ (sid : Str) (rows : List (Option Str)) (old : List SampleRow),
        (splitDash sid).length ≠ 2 →
        sample_table_populator (some sid :: rows) old = .error old)
    ∧ (∀ (rows : List (Option Str)) (old : List SampleRow),
        sample_table_populator (none :: rows) old =
          (sample_table_populator rows old).map (fun p => (p.1, p.2 + 1))) := by
  constructor
  · intro sid rows old h
    simp only [sample_table_populator, sampleLoadAux]
    cases hs : splitDash sid with
    | nil => rfl
    | cons a t1 =>
        cases t1 with
        | nil => rfl
        | cons b t2 =>
            cases t2 with
            | nil => exact absurd (by rw [hs]; rfl) h
            | cons c t3 => rfl
  · intro rows old
    simp only [sample_table_populator, sampleLoadAux]
    rw [sampleLoadAux_printed_shift rows [] (0 + 1)]
    cases sampleLoadAux rows [] 0 with
    | error e => rfl
    | ok p => rfl

/-- C2 witness: instantiating the amended claim — a dash-less SampleID
aborts the load, and a missing-key row is skipped with one diagnostic
while loading continues. -/
theorem C2_witness :
    sample_table_populator [some ("AB".data)] [] =
      .error ([] : List SampleRow) ∧
    sample_table_populator [none] [] =
      (sample_table_populator ([] : List (Option Str)) []).map
        (fun p => (p.1, p.2 + 1)) := by
  exact ⟨C2_amended.1 ("AB".data) [] [] (by decide), C2_amended.2 [] []⟩

/-- C3 counterexample: `visits_by_ZNQOVZV` on an empty Samples table —
its SQL yields zero rows, yet the function prints no diagnostic (it
returns the empty fetch result unconditionally), contradicting the claim
that every one of the nine query functions prints one. -/
theorem C3_counterexample :
    (visits_by_ZNQOVZV []).1 = [] ∧ (visits_by_ZNQOVZV []).2 = false := by
  exact ⟨rfl, rfl⟩

/-- C3 amended: on a zero-row result, queries 1, 2, 4, 5 and 7 print a
diagnostic and return the empty list; query 3 (`visits_by_ZNQOVZV`)
returns the empty list *without* printing a diagnostic; the aggregate
queries 6 and 8 always obtain exactly one SQL row, query 8 printing its
diagnostic and returning null whenever the scalar is null; and query 9
prints its diagnostic and returns the empty list on zero rows.  None of
the nine raises. -/
theorem C3_amended :
    (∀ s, (subjects_over_70 s).1 = [] → (subjects_over_70 s).2 = true)
    ∧ (∀ s, (females_with_healthy_BMI s).1 = [] →
        (females_with_healthy_BMI s).2 = true)
    ∧ (∀ sm, (visits_by_ZNQOVZV sm).2 = false)
    ∧ (∀ sm s, (subjects_metabolomic_insulin_resistant sm s).1 = [] →
        (subjects_metabolomic_insulin_resistant sm s).2 = true)
    ∧ (∀ a, (KEGG_id_retriever a).1 = [] → (KEGG_id_retriever a).2 = true)
    ∧ (∀ s, ∃ row d, statistical_data_on_age false s = .ok ([row], d))
    ∧ (∀ a, (pathway_annotation_counter a).1 = [] →
        (pathway_annotation_counter a).2 = true)
    ∧ (∀ sm t, (max_A1BG_abundance sm t).1 = none →
        (max_A1BG_abundance sm t).2 = true)
    ∧ (∀ s, (age_bmi_plot s).1 = [] → (age_bmi_plot s).2 = true) := by
  refine ⟨?_, ?_, ?_, ?_, ?_, ?_, ?_, ?_, ?_⟩
  · intro s h
    exact emptyGuard_diag _ h
  · intro s h
    exact emptyGuard_diag _ h
  · intro sm
    rfl
  · intro sm s h
    exact emptyGuard_diag _ h
  · intro a h
    exact emptyGuard_diag _ h
  · intro s
    exact ⟨_, _, rfl⟩
  · intro a h
    exact emptyGuard_diag _ h
  · intro sm t h
    exact scalarGuard_diag _ h
  · intro s h
    simp only [age_bmi_plot] at h ⊢
    rw [h]
    rfl

/-- C3 witness: the amended claim applied to concrete empty tables —
query 1 prints its diagnostic on a zero-row result, while query 3 stays
silent. -/
theorem C3_witness :
    (subjects_over_70 []).2 = true ∧ (visits_by_ZNQOVZV []).2 = false := by
  exact ⟨C3_amended.1 [] rfl, C3_amended.2.2.1 []⟩

/-- C8: running `database_struct` against a database whose tables all
already exist makes the very first CREATE statement raise; the error is
caught and logged, the `finally` block closes the connection, and both
the schema and every table's rows are left exactly as they were. -/
theorem C8_existing_tables_unchanged (db : DB)
    (h : ∀ n ∈ schemaTableNames, n ∈ db.tables) :
    database_struct db =
      { db := db, errorLogged := true, connectionClosed := true } := by
  have hs : "Subjects".data ∈ db.tables := h _ (by simp [schemaTableNames])
  simp only [database_struct, schemaTableNames, createTables, hs, if_pos]

/-- C8 witness: re-initializing a freshly initialized (otherwise empty)
database is caught, logged, and leaves it unchanged. -/
theorem C8_witness :
    database_struct
      { tables := schemaTableNames, subjects := [], samples := [],
        transcripts := [], proteins := [], metabolites := [],
        annotations := [] } =
      { db := { tables := schemaTableNames, subjects := [], samples := [],
                transcripts := [], proteins := [], metabolites := [],
                annotations := [] },
        errorLogged := true, connectionClosed := true } := by
  exact C8_existing_tables_unchanged _ (by decide)

/-- C9 counterexample: `--querydb 0` — the integer 0 is outside 1..9,
yet the dispatcher prints no error message (the guard `if args.querydb:`
is falsy for 0, so the whole branch is skipped silently). -/
theorem C9_counterexample :
    querydb_dispatch (some 0) =
      { ranQuery := none, invalidMessage := false }
    ∧ ((0 : Int) < 1 ∨ 9 < (0 : Int)) := by
  exact ⟨rfl, by decide⟩

/-- C9 amended: for every *nonzero* integer outside 1..9, the dispatcher
prints the invalid-number message and returns without executing any
query; the integer 0 is instead treated like an absent flag (no message,
no query). -/
theorem C9_invalid_query_message (q : Int) (h0 : q ≠ 0)
    (hout : q < 1 ∨ 9 < q) :
    querydb_dispatch (some q) =
      { ranQuery := none, invalidMessage := true } := by
  have h1 : q ≠ 1 := by omega
  have h2 : q ≠ 2 := by omega
  have h3 : q ≠ 3 := by omega
  have h4 : q ≠ 4 := by omega
  have h5 : q ≠ 5 := by omega
  have h6 : q ≠ 6 := by omega
  have h7 : q ≠ 7 := by omega
  have h8 : q ≠ 8 := by omega
  have h9 : q ≠ 9 := by omega
  simp [querydb_dispatch, h0, h1, h2, h3, h4, h5, h6, h7, h8, h9]

/-- C9 witness: `--querydb 10` prints the invalid-number message and
runs nothing. -/
theorem C9_witness :
    querydb_dispatch (some 10) =
      { ranQuery := none, invalidMessage := true } := by
  exact C9_invalid_query_message 10 (by decide) (by decide)

/-- A successful subjects insert pass appends exactly the converted file
rows to the accumulator. -/
theorem subjectInsertAll_ok (rows : List SubjectsFileRow)
    (acc t : List SubjectRow) (h : subjectInsertAll rows acc = .ok t) :
    t = acc ++ rows.map rowToSubject := by
  induction rows generalizing acc with
  | nil =>
      injection h with h2
      simp [h2]
  | cons r rest ih =>
      simp only [subjectInsertAll, insertSubject] at h
      by_cases hc : acc.any (fun x => x.subjectID = (rowToSubject r).subjectID)
      · rw [if_pos hc] at h
        exact Except.noConfusion h
      · rw [if_neg hc] at h
        have := ih (acc ++ [rowToSubject r]) h
        simpa using this

/-- A successful per-line abundance insert pass grows the table by one
row per (analyte, value) pair. -/
theorem abundanceRowAux_ok_length (sid : Str) (pairs : List (Str × Str))
    (tbl t : List AbundanceRow) (h : abundanceRowAux sid pairs tbl = .ok t) :
    t.length = tbl.length + pairs.length := by
  induction pairs generalizing tbl with
  | nil =>
      injection h with h2
      simp [h2]
  | cons p rest ih =>
      simp only [abundanceRowAux, insertAbundance] at h
      by_cases hc : tbl.any (fun x =>
        x.sampleID = sid && x.analyte = p.1)
      · rw [if_pos hc] at h
        exact Except.noConfusion h
      · rw [if_neg hc] at h
        have := ih _ h
        simp only [List.length_append, List.length_cons, List.length_nil]
          at this ⊢
        omega

/-- A successful wide-format load pass grows the table by (number of
analytes) rows per file line, provided every line carries one value per
analyte. -/
theorem abundanceLoadAux_ok_length (analytes : List Str)
    (rows : List (Str × List Str)) (tbl t : List AbundanceRow)
    (h : abundanceLoadAux analytes rows tbl = .ok t)
    (hlen : ∀ r ∈ rows, r.2.length = analytes.length) :
    t.length = tbl.length + analytes.length * rows.length := by
  induction rows generalizing tbl with
  | nil =>
      injection h with h2
      simp [h2]
  | cons r rest ih =>
      simp only [abundanceLoadAux] at h
      cases hr : abundanceRowAux r.1 (analytes.zip r.2) tbl with
      | error e =>
          rw [hr] at h
          exact Except.noConfusion h
      | ok tbl2 =>
          rw [hr] at h
          have hlen1 : r.2.length = analytes.length := hlen r (by simp)
          have l1 := abundanceRowAux_ok_length _ _ _ _ hr
          have l2 := ih tbl2 h (fun x hx => hlen x (by simp [hx]))
          rw [List.length_zip, hlen1, Nat.min_self] at l1
          simp only [List.length_cons, Nat.mul_succ] at l2 ⊢
          linarith

/-- Invariant preservation along the sample row loop: every property
that holds of all rows of the accumulated table and of every row the
loop can insert holds of the final table. -/
theorem sampleLoadAux_split_inv (rows : List (Option Str))
    (tbl0 : List SampleRow) (n0 : Nat) (tbl : List SampleRow) (n : Nat)
    (h : sampleLoadAux rows tbl0 n0 = .ok (tbl, n))
    (hinv : ∀ r ∈ tbl0, ∃ v, r.visitID = integerAffinity v ∧
      r.subjectID ++ '-' :: v = r.sampleID) :
    ∀ r ∈ tbl, ∃ v, r.visitID = integerAffinity v ∧
      r.subjectID ++ '-' :: v = r.sampleID := by
  induction rows generalizing tbl0 n0 with
  | nil =>
      injection h with h2
      injection h2 with h3 h4
      rw [← h3]
      exact hinv
  | cons row rest ih =>
      cases row with
      | none => exact ih tbl0 (n0 + 1) h hinv
      | some sid =>
          simp only [sampleLoadAux] at h
          rcases hs : splitDash sid with _ | ⟨a, _ | ⟨b, _ | ⟨c, t3⟩⟩⟩ <;>
            rw [hs] at h
          · exact Except.noConfusion h
          · exact Except.noConfusion h
          · refine ih _ n0 h ?_
            intro r hr
            simp only [insertOrIgnoreSample] at hr
            by_cases hc : tbl0.any (fun x => x.sampleID = sid)
            · rw [if_pos hc] at hr
              exact hinv r hr
            · rw [if_neg hc] at hr
              rcases List.mem_append.mp hr with hmem | hmem
              · exact hinv r hmem
              · have hr2 := List.mem_singleton.mp hmem
                subst hr2
                exact ⟨b, rfl, splitDash_two sid a b hs⟩
          · exact Except.noConfusion h

/-- The filter `ageFilter` keeps every INTEGER-stored age, so mapping a list of
integers into the Age column filters to itself. -/
theorem filteredAges_map_int_self (l : List Int) :
    ((l.map SqlVal.int).filter ageFilter) = l.map SqlVal.int := by
  induction l with
  | nil => rfl
  | cons x xs ih => simp [List.filter, ageFilter, ih]

/-- A list of INTEGER values has no NULLs. -/
theorem filter_ne_null_map_int (l : List Int) :
    ((l.map SqlVal.int).filter (fun v => v ≠ SqlVal.null)) =
      l.map SqlVal.int := by
  induction l with
  | nil => rfl
  | cons x xs ih => simp [List.filter, ih]

/-- One MIN fold step over two INTEGER values is the integer minimum. -/
theorem sqlMinFold_int (x y : Int) :
    sqlMinFold (SqlVal.int x) (SqlVal.int y) = SqlVal.int (min x y) := by
  simp only [sqlMinFold, sqlValLt]
  rcases lt_trichotomy y x with h | h | h
  · rw [if_pos (by simpa using h)]
    rw [min_eq_right (le_of_lt h)]
  · subst h
    simp
  · rw [if_neg (by simpa using not_lt.mpr (le_of_lt h))]
    rw [min_eq_left (le_of_lt h)]

/-- One MAX fold step over two INTEGER values is the integer maximum. -/
theorem sqlMaxFold_int (x y : Int) :
    sqlMaxFold (SqlVal.int x) (SqlVal.int y) = SqlVal.int (max x y) := by
  simp only [sqlMaxFold, sqlValLt]
  rcases lt_trichotomy x y with h | h | h
  · rw [if_pos (by simpa using h)]
    rw [max_eq_right (le_of_lt h)]
  · subst h
    simp
  · rw [if_neg (by simpa using not_lt.mpr (le_of_lt h))]
    rw [max_eq_left (le_of_lt h)]

/-- The MIN aggregate over INTEGER values is the fold of the integer
minimum. -/
theorem foldl_sqlMinFold_int (x : Int) (xs : List Int) :
    (xs.map SqlVal.int).foldl sqlMinFold (SqlVal.int x) =
      SqlVal.int (xs.foldl min x) := by
  induction xs generalizing x with
  | nil => rfl
  | cons y ys ih =>
      simp only [List.map, List.foldl]
      rw [sqlMinFold_int]
      exact ih (min x y)

/-- The MAX aggregate over INTEGER values is the fold of the integer
maximum. -/
theorem foldl_sqlMaxFold_int (x : Int) (xs : List Int) :
    (xs.map SqlVal.int).foldl sqlMaxFold (SqlVal.int x) =
      SqlVal.int (xs.foldl max x) := by
  induction xs generalizing x with
  | nil => rfl
  | cons y ys ih =>
      simp only [List.map, List.foldl]
      rw [sqlMaxFold_int]
      exact ih (max x y)

/-- Numeric interpretation of INTEGER values is the integer cast. -/
theorem map_toNumericQ_int (l : List Int) :
    (l.map SqlVal.int).map toNumericQ = l.map (fun i => (i : ℚ)) := by
  induction l with
  | nil => rfl
  | cons x xs ih => simp [toNumericQ, ih]

/-- C10: when the SQL execution inside `statistical_data_on_age` raises a
database error, the handler prints the message and the `finally` closes
the connection, but the local `answer` was never bound, so the null-check
line raises `NameError`: the function never returns a value. -/
theorem C10_db_error_raises_nameError (subjects : List SubjectRow) :
    statistical_data_on_age true subjects = .error PyExc.nameError := by
  rfl

/-- C4 counterexample: loading the sample identifier "A-013" succeeds,
but the INTEGER affinity of the VisitID column stores the visit part
"013" as the integer 13, so concatenating SubjectID, a dash and the
stored VisitID yields "A-13", not the original SampleID. -/
theorem C4_counterexample :
    sample_table_populator [some ("A-013".data)] [] =
      .ok ([{ sampleID := "A-013".data, subjectID := "A".data,
              visitID := SqlVal.int 13 }], 0)
    ∧ "A".data ++ '-' :: renderInt 13 ≠ "A-013".data := by
  exact ⟨rfl, by decide⟩

/-- C4 amended: for every row of the Samples table after a successful
load, the row's SampleID splits as SubjectID, a dash, and a visit
substring whose INTEGER-affinity image is the stored VisitID; the
concatenation reproduces SampleID with that substring (and hence with
the stored VisitID exactly when affinity round-trips on it, which fails
e.g. for a leading-zero visit part). -/
theorem C4_sample_split_invariant (rows : List (Option Str))
    (old tbl : List SampleRow) (n : Nat)
    (h : sample_table_populator rows old = .ok (tbl, n)) :
    ∀ r ∈ tbl, ∃ v, r.visitID = integerAffinity v ∧
      r.subjectID ++ '-' :: v = r.sampleID := by
  simp only [sample_table_populator] at h
  cases ha : sampleLoadAux rows [] 0 with
  | error e =>
      rw [ha] at h
      exact Except.noConfusion h
  | ok p =>
      rw [ha] at h
      injection h with h2
      rw [h2] at ha
      exact sampleLoadAux_split_inv rows [] 0 tbl n ha (by simp)

/-- C4 witness: the invariant instantiated on a well-formed sample file
row "X-7". -/
theorem C4_witness :
    ∃ v, SqlVal.int 7 = integerAffinity v ∧
      "X".data ++ '-' :: v = "X-7".data := by
  have h := C4_sample_split_invariant [some ("X-7".data)] []
    [{ sampleID := "X-7".data, subjectID := "X".data,
       visitID := SqlVal.int 7 }] 0 rfl
    { sampleID := "X-7".data, subjectID := "X".data,
      visitID := SqlVal.int 7 } (by simp)
  exact h

/-- C5: each wide-format loader, on a file with N data columns and M
data rows (every row carrying one value per column) and no primary-key
collision (a successful load), leaves exactly N×M rows in its target
table. -/
theorem C5_wide_pivot_row_count :
    (∀ (analytes : List Str) (rows : List (Str × List Str))
        (old t : List AbundanceRow),
        transcriptome_populator analytes rows old = .ok t →
        (∀ r ∈ rows, r.2.length = analytes.length) →
        t.length = analytes.length * rows.length)
    ∧ (∀ (analytes : List Str) (rows : List (Str × List Str))
        (old t : List AbundanceRow),
        protein_populator analytes rows old = .ok t →
        (∀ r ∈ rows, r.2.length = analytes.length) →
        t.length = analytes.length * rows.length)
    ∧ (∀ (analytes : List Str) (rows : List (Str × List Str))
        (old t : List AbundanceRow),
        Metabolite_populator analytes rows old = .ok t →
        (∀ r ∈ rows, r.2.length = analytes.length) →
        t.length = analytes.length * rows.length) := by
  have key : ∀ (analytes : List Str) (rows : List (Str × List Str))
      (old t : List AbundanceRow),
      (match abundanceLoadAux analytes rows [] with
        | .ok u => (.ok u : Except (List AbundanceRow) (List AbundanceRow))
        | .error _ => .error old) = .ok t →
      (∀ r ∈ rows, r.2.length = analytes.length) →
      t.length = analytes.length * rows.length := by
    intro analytes rows old t h hlen
    cases ha : abundanceLoadAux analytes rows [] with
    | error e =>
        rw [ha] at h
        exact Except.noConfusion h
    | ok u =>
        rw [ha] at h
        injection h with h2
        rw [← h2]
        have := abundanceLoadAux_ok_length analytes rows [] u ha hlen
        simpa using this
  exact ⟨fun a r o t => key a r o t, fun a r o t => key a r o t,
    fun a r o t => key a r o t⟩

/-- C5 witness: a 2-column, 2-row transcript file loads to exactly four
rows. -/
theorem C5_witness :
    ([{ sampleID := "S1".data, analyte := "G1".data,
        abundance := SqlVal.text ("a".data) },
      { sampleID := "S1".data, analyte := "G2".data,
        abundance := SqlVal.text ("b".data) },
      { sampleID := "S2".data, analyte := "G1".data,
        abundance := SqlVal.text ("c".data) },
      { sampleID := "S2".data, analyte := "G2".data,
        abundance := SqlVal.text ("d".data) }] : List AbundanceRow).length =
      (["G1".data, "G2".data] : List Str).length *
        ([("S1".data, ["a".data, "b".data]),
          ("S2".data, ["c".data, "d".data])] :
          List (Str × List Str)).length := by
  exact C5_wide_pivot_row_count.1 ["G1".data, "G2".data]
    [("S1".data, ["a".data, "b".data]), ("S2".data, ["c".data, "d".data])]
    [] _ rfl (by decide)

/-- C6: a successful run of the subjects loader on file B yields exactly
the rows converted from B — regardless of the table state a previous
load of file A left behind, since the loader deletes all rows first. -/
theorem C6_subject_load_replaces (A B : List SubjectsFileRow)
    (t0 tA tB : List SubjectRow)
    (_hA : subject_table_populator A t0 = .ok tA)
    (hB : subject_table_populator B tA = .ok tB) :
    tB = B.map rowToSubject := by
  simp only [subject_table_populator] at hB
  cases hb : subjectInsertAll B [] with
  | error e =>
      rw [hb] at hB
      exact Except.noConfusion hB
  | ok u =>
      rw [hb] at hB
      injection hB with h2
      rw [← h2]
      simpa using subjectInsertAll_ok B [] u hb

/-- C6 witness: loading a one-row file A and then a one-row file B
leaves exactly B's converted row. -/
theorem C6_witness :
    ([{ subjectID := "S2".data, sex := "M".data,
        age := SqlVal.text ("NA".data), bmi := SqlVal.text ("x".data),
        race := "r".data, sspg := SqlVal.text ("y".data),
        insulinStatus := "IS".data }] : List SubjectRow) =
      ([{ subjectID := "S2".data, sex := "M".data, age := "NA".data,
          bmi := "x".data, race := "r".data, sspg := "y".data,
          ir_is_classification := "IS".data }] :
        List SubjectsFileRow).map rowToSubject := by
  exact C6_subject_load_replaces
    [{ subjectID := "S1".data, sex := "F".data, age := "70".data,
       bmi := "x".data, race := "r".data, sspg := "y".data,
       ir_is_classification := "IR".data }]
    [{ subjectID := "S2".data, sex := "M".data, age := "NA".data,
       bmi := "x".data, race := "r".data, sspg := "y".data,
       ir_is_classification := "IS".data }]
    [] _ _ rfl rfl

/-- C7 counterexample: on a Subjects table whose Age column holds the
text 'NA' and the integer 10, the query aggregates only over {10} and
returns (10, 10, 10.0) — but the non-null Age values are {'NA', 10},
whose SQLite maximum is the text 'NA', not 10: the aggregates are not
computed over exactly the non-null Age values. -/
theorem C7_counterexample :
    statistical_data_on_age false
      [ageOnlyRow (SqlVal.text ("NA".data)), ageOnlyRow (SqlVal.int 10)] =
      .ok ([(SqlVal.int 10, SqlVal.int 10, SqlVal.real 10)], false)
    ∧ specNonNullAges
        [ageOnlyRow (SqlVal.text ("NA".data)), ageOnlyRow (SqlVal.int 10)] =
        [SqlVal.text ("NA".data), SqlVal.int 10]
    ∧ sqlMax [SqlVal.text ("NA".data), SqlVal.int 10] =
        SqlVal.text ("NA".data)
    ∧ SqlVal.text ("NA".data) ≠ SqlVal.int 10 := by
  refine ⟨?_, rfl, rfl, by decide⟩
  have h0 : statistical_data_on_age false
      [ageOnlyRow (SqlVal.text ("NA".data)), ageOnlyRow (SqlVal.int 10)] =
      .ok ([(SqlVal.int 10, SqlVal.int 10, sqlAvg [SqlVal.int 10])],
        false) := rfl
  rw [h0]
  have hq : sqlAvg [SqlVal.int 10] = SqlVal.real 10 := by
    simp [sqlAvg, toNumericQ]
  rw [hq]

/-- C7 amended: `statistical_data_on_age` returns one row of
(minimum, maximum, average) computed over exactly the Age values that
are neither NULL nor the literal text 'NA'; in particular, when those
values are the integers x :: xs, the row is their integer minimum,
integer maximum and rational mean; on ages {10, 20, 30} it returns
(10, 30, 20); and when every Age is NULL it returns a row of NULLs with
the diagnostic printed. -/
theorem C7_age_statistics :
    (∀ (subjects : List SubjectRow) (x : Int) (xs : List Int),
        filteredAges subjects = (x :: xs).map SqlVal.int →
        statistical_data_on_age false subjects =
          .ok ([(SqlVal.int (xs.foldl min x), SqlVal.int (xs.foldl max x),
                 SqlVal.real (((x :: xs).map (fun i => (i : ℚ))).sum /
                   (((x :: xs).length : ℚ))))], false))
    ∧ statistical_data_on_age false
        [ageOnlyRow (SqlVal.int 10), ageOnlyRow (SqlVal.int 20),
         ageOnlyRow (SqlVal.int 30)] =
        .ok ([(SqlVal.int 10, SqlVal.int 30, SqlVal.real 20)], false)
    ∧ statistical_data_on_age false
        [ageOnlyRow SqlVal.null, ageOnlyRow SqlVal.null] =
        .ok ([(SqlVal.null, SqlVal.null, SqlVal.null)], true) := by
  have general : ∀ (subjects : List SubjectRow) (x : Int) (xs : List Int),
      filteredAges subjects = (x :: xs).map SqlVal.int →
      statistical_data_on_age false subjects =
        .ok ([(SqlVal.int (xs.foldl min x), SqlVal.int (xs.foldl max x),
               SqlVal.real (((x :: xs).map (fun i => (i : ℚ))).sum /
                 (((x :: xs).length : ℚ))))], false) := by
    intro subjects x xs hf
    simp only [statistical_data_on_age, if_neg (Bool.false_ne_true), hf]
    have hmin : sqlMin ((x :: xs).map SqlVal.int) =
        SqlVal.int (xs.foldl min x) := by
      simp only [sqlMin, filter_ne_null_map_int, List.map, List.foldl,
        sqlMinFold]
      exact foldl_sqlMinFold_int x xs
    have hmax : sqlMax ((x :: xs).map SqlVal.int) =
        SqlVal.int (xs.foldl max x) := by
      simp only [sqlMax, filter_ne_null_map_int, List.map, List.foldl,
        sqlMaxFold]
      exact foldl_sqlMaxFold_int x xs
    have havg : sqlAvg ((x :: xs).map SqlVal.int) =
        SqlVal.real (((x :: xs).map (fun i => (i : ℚ))).sum /
          (((x :: xs).length : ℚ))) := by
      simp only [sqlAvg, filter_ne_null_map_int, map_toNumericQ_int]
      simp
    rw [hmin, hmax, havg]
    simp
  refine ⟨general, ?_, by rfl⟩
  have h2 := general
    [ageOnlyRow (SqlVal.int 10), ageOnlyRow (SqlVal.int 20),
     ageOnlyRow (SqlVal.int 30)] 10 [20, 30] rfl
  rw [h2]
  norm_num

/-- C7 witness: the general clause of the amended claim applied to a
single stored age 5. -/
theorem C7_witness :
    statistical_data_on_age false [ageOnlyRow (SqlVal.int 5)] =
      .ok ([(SqlVal.int (([] : List Int).foldl min 5),
             SqlVal.int (([] : List Int).foldl max 5),
             SqlVal.real ((([5] : List Int).map (fun i => (i : ℚ))).sum /
               ((([5] : List Int).length : ℚ))))], false) := by
  exact C7_age_statistics.1 [ageOnlyRow (SqlVal.int 5)] 5 [] rfl

end ProteinDatabase
